import Mathlib

/-!
Verification of the codec-and-pagination core of the `rosu-v2` fork
(`src/model/ranking.rs`, `src/model/news.rs`, `src/request/multiplayer.rs`).

The Rust code is shallowly embedded: JSON values become an inductive `Json`
type (numbers are carried exactly as rationals), serde deserializers become
total Lean functions into `Except DeErr _`, serializers become functions
producing ordered association lists (serde's `serialize_struct` emits fields
in call order), and the `get_next` pagination methods become pure functions
returning the single logical request they would hand to the transport
collaborator, a "no more data" sentinel, or a panic marker.

Machine integers are embedded as `Nat` with explicit range conditions where
the generic serde decode layer would enforce them; the lossy `as u32` cast in
the cursor codec is embedded as `% 2^32`.
-/

set_option autoImplicit false

namespace RosuV2

/-- A JSON value as handed to the codecs by the generic decode layer
(`serde_json::Value`).  Numbers are modelled exactly as rationals; object
fields keep their wire order. -/
inductive Json where
  | null : Json
  | bool (b : Bool) : Json
  | num (q : Rat) : Json
  | str (s : String) : Json
  | arr (elems : List Json) : Json
  | obj (fields : List (String × Json)) : Json

/-- Errors surfaced by the decode layer: a named missing required field
(`serde::de::Error::missing_field`) or a wire value of the wrong JSON kind
(the generic layer's invalid-type error, forwarded unchanged). -/
inductive DeErr where
  | missingField (name : String)
  | typeMismatch
  deriving DecidableEq

/-- Whether a JSON value is `null`. -/
def Json.isNull : Json → Bool
  | .null => true
  | _ => false

/-- Generic decode of a JSON string (`serde` `String` deserialization). -/
def decStr : Json → Except DeErr String
  | .str s => .ok s
  | _ => .error .typeMismatch

/-- Generic decode of a JSON boolean. -/
def decBool : Json → Except DeErr Bool
  | .bool b => .ok b
  | _ => .error .typeMismatch

/-- Generic decode of an `f32` field: any JSON number is accepted and carried
exactly (floating-point rounding is not modelled; values round-trip
verbatim). -/
def decF32 : Json → Except DeErr Rat
  | .num q => .ok q
  | _ => .error .typeMismatch

/-- Generic decode of a `u32`: a JSON number that is a non-negative integer
fitting in 32 bits; anything else is an invalid-type/out-of-range error. -/
def decU32 : Json → Except DeErr Nat
  | .num q =>
    if q.den = 1 ∧ 0 ≤ q.num ∧ q.num < 4294967296 then .ok q.num.toNat
    else .error .typeMismatch
  | _ => .error .typeMismatch

/-- Generic decode of a `u64` (non-negative integer below `2^64`). -/
def decU64 : Json → Except DeErr Nat
  | .num q =>
    if q.den = 1 ∧ 0 ≤ q.num ∧ q.num < 18446744073709551616 then .ok q.num.toNat
    else .error .typeMismatch
  | _ => .error .typeMismatch

/-- Generic decode of a `u8` (non-negative integer below `2^8`). -/
def decU8 : Json → Except DeErr Nat
  | .num q =>
    if q.den = 1 ∧ 0 ≤ q.num ∧ q.num < 256 then .ok q.num.toNat
    else .error .typeMismatch
  | _ => .error .typeMismatch

/-- Decode of an out-of-scope one-to-one field-mapped payload
(`GradeCounts`, `UserLevel`, `DateTime`, the badge/medal/history vectors, …).
Modelled from the spec: §1 places these simple derived codecs outside the
core; their values are carried as the raw wire JSON value, so their codec is
the identity. -/
def decJson : Json → Except DeErr Json := fun j => .ok j

/-- Generic decode of an `Option<u32>` value: JSON `null` is `None`, a valid
`u32` number is `Some`. -/
def decOptU32 : Json → Except DeErr (Option Nat)
  | .null => .ok none
  | j => (decU32 j).map some

/-- Generic decode of an `Option<f32>` value. -/
def decOptF32 : Json → Except DeErr (Option Rat)
  | .null => .ok none
  | j => (decF32 j).map some

/-- First value stored under `name` in an object's field list (the generic
decode layer's field lookup for derived struct deserialization). -/
def findVal (name : String) : List (String × Json) → Option Json
  | [] => none
  | (k, v) :: rest => if k = name then some v else findVal name rest

/-- Emit a field only when its value is present — the building block for
serde's `skip_serializing_if = "Option::is_none"` emission and for
describing wire envelopes in which a key may be entirely absent. -/
def optEntry (name : String) (v : Option Json) (rest : List (String × Json)) :
    List (String × Json) :=
  match v with
  | some j => (name, j) :: rest
  | none => rest

/-- Combine a freshly decoded optional slot with an older one: a present
wire key overwrites, an absent one keeps the previous content. -/
def oupd {α : Type} (new old : Option α) : Option α :=
  match new with
  | some x => some x
  | none => old

/-- Read a required struct field: absent is a named missing-field error. -/
def reqField {α : Type} (dec : Json → Except DeErr α) (name : String)
    (fields : List (String × Json)) : Except DeErr α :=
  match findVal name fields with
  | none => .error (.missingField name)
  | some j => dec j

/-- Read an optional (`Option<T>`) struct field: absent or present-`null`
is `none`, any other present value is decoded. -/
def optField {α : Type} (dec : Json → Except DeErr α) (name : String)
    (fields : List (String × Json)) : Except DeErr (Option α) :=
  match findVal name fields with
  | none => .ok none
  | some .null => .ok none
  | some j => (dec j).map some

/-- Modelled from the spec: the game-mode parameter carried in a ranking
page's context (§3: `{mode, rankingSubkind}`; §8 names mode `osu`).  The
enum itself lives in `src/model/mod.rs`, outside the excerpt. -/
inductive GameMode where
  | osu
  | taiko
  | catch
  | mania
  deriving DecidableEq

/-- The four recorded ranking subkinds (`enum RankingType`,
`src/model/ranking.rs` lines 487-494). -/
inductive RankingType where
  | Charts
  | Country
  | Performance
  | Score
  deriving DecidableEq

/-- Wire form of a `RankingType` under `#[serde(rename_all = "lowercase")]`. -/
def decRankingType : Json → Except DeErr RankingType
  | .str "charts" => .ok .Charts
  | .str "country" => .ok .Country
  | .str "performance" => .ok .Performance
  | .str "score" => .ok .Score
  | _ => .error .typeMismatch

/-- Modelled from the spec: the opaque forward-only pagination token for
list/search resources (§3 `OpaqueCursor`; `super::Cursor` lives outside the
excerpt).  It is never inspected, only stored and forwarded, so it is
carried as its raw wire JSON value. -/
structure Cursor where
  token : Json

/-- Modelled from the spec: wire decode of the mode field.  The `GameMode`
codec lives outside the excerpt; the spec's mode identifiers are embedded as
their canonical names.  No theorem below depends on this shape. -/
def decGameMode : Json → Except DeErr GameMode
  | .str "osu" => .ok .osu
  | .str "taiko" => .ok .taiko
  | .str "fruits" => .ok .catch
  | .str "mania" => .ok .mania
  | _ => .error .typeMismatch

/-- The `UserStatistics` sub-record (14 fields; field set and wire names
taken from `UserStatsVisitor::visit_map` lines 136-237 and
`UserCompactBorrowed::serialize` lines 248-281; `u32`/`u64` fields are `Nat`
with range side conditions, `f32` fields are exact rationals, and the
out-of-scope `GradeCounts`/`UserLevel` payloads are raw wire values). -/
structure UserStatistics where
  accuracy : Rat
  country_rank : Option Nat
  global_rank : Option Nat
  grade_counts : Json
  is_ranked : Bool
  level : Json
  max_combo : Nat
  playcount : Nat
  playtime : Nat
  pp : Rat
  ranked_score : Nat
  replays_watched : Nat
  total_hits : Nat
  total_score : Nat

/-- The decoded leaderboard record ("Entity").  The field list is exactly
the one destructured by `UserCompactWithoutStats::new` (lines 380-475) plus
the `statistics` slot; field types follow `UserCompactWithoutStats`
(lines 284-378), with out-of-scope nested payloads carried as raw wire
values. -/
structure UserCompact where
  avatar_url : String
  country_code : String
  default_group : String
  is_active : Bool
  is_bot : Bool
  is_deleted : Bool
  is_online : Bool
  is_supporter : Bool
  last_visit : Option Json
  pm_friends_only : Bool
  profile_color : Option String
  user_id : Nat
  username : String
  account_history : Option Json
  badges : Option Json
  beatmap_playcounts_count : Option Nat
  country : Option String
  cover : Option Json
  favourite_mapset_count : Option Nat
  follower_count : Option Nat
  graveyard_mapset_count : Option Nat
  groups : Option Json
  is_admin : Option Bool
  is_bng : Option Bool
  is_full_bn : Option Bool
  is_gmt : Option Bool
  is_limited_bn : Option Bool
  is_moderator : Option Bool
  is_nat : Option Bool
  is_silenced : Option Bool
  loved_mapset_count : Option Nat
  medals : Option Json
  monthly_playcounts : Option Json
  page : Option Json
  previous_usernames : Option Json
  rank_history : Option Json
  ranked_mapset_count : Option Nat
  replays_watched_counts : Option Json
  scores_best_count : Option Nat
  scores_first_count : Option Nat
  scores_recent_count : Option Nat
  statistics : Option UserStatistics
  support_level : Option Nat
  pending_mapset_count : Option Nat

/-- Range side conditions making a `UserStatistics` value representable in
the Rust field types (`u32`/`u64` bounds). -/
def UserStatistics.wfB (s : UserStatistics) : Bool :=
  s.max_combo < 4294967296 && s.playcount < 4294967296 &&
  s.playtime < 4294967296 && s.replays_watched < 4294967296 &&
  s.ranked_score < 18446744073709551616 && s.total_hits < 18446744073709551616 &&
  s.total_score < 18446744073709551616 &&
  s.country_rank.getD 0 < 4294967296 && s.global_rank.getD 0 < 4294967296

/-- Representability conditions for a `UserCompact`: integer fields in their
Rust ranges, and optional out-of-scope payloads never the JSON `null` value
(a Rust `Some(UserCover)` etc. always serializes as a non-null value). -/
def UserCompact.wfB (u : UserCompact) : Bool :=
  u.user_id < 4294967296 &&
  u.beatmap_playcounts_count.getD 0 < 4294967296 &&
  u.favourite_mapset_count.getD 0 < 4294967296 &&
  u.follower_count.getD 0 < 4294967296 &&
  u.graveyard_mapset_count.getD 0 < 4294967296 &&
  u.loved_mapset_count.getD 0 < 4294967296 &&
  u.ranked_mapset_count.getD 0 < 4294967296 &&
  u.scores_best_count.getD 0 < 4294967296 &&
  u.scores_first_count.getD 0 < 4294967296 &&
  u.scores_recent_count.getD 0 < 4294967296 &&
  u.pending_mapset_count.getD 0 < 4294967296 &&
  u.support_level.getD 0 < 256 &&
  u.last_visit.all (fun j => !j.isNull) &&
  u.account_history.all (fun j => !j.isNull) &&
  u.badges.all (fun j => !j.isNull) &&
  u.cover.all (fun j => !j.isNull) &&
  u.groups.all (fun j => !j.isNull) &&
  u.medals.all (fun j => !j.isNull) &&
  u.monthly_playcounts.all (fun j => !j.isNull) &&
  u.page.all (fun j => !j.isNull) &&
  u.previous_usernames.all (fun j => !j.isNull) &&
  u.rank_history.all (fun j => !j.isNull) &&
  u.replays_watched_counts.all (fun j => !j.isNull) &&
  u.statistics.all UserStatistics.wfB

/-- Serialization of a `UserCompact` reference without its statistics —
the payload of the `user` key.  Translated field-for-field from
`UserCompactWithoutStats` (lines 284-378): fields in declaration order,
wire renames applied, and each `Option` field emitted only when present
(`skip_serializing_if = "Option::is_none"`). -/
def renderRest (u : UserCompact) : List (String × Json) :=
  ("avatar_url", .str u.avatar_url) ::
  ("country_code", .str u.country_code) ::
  ("default_group", .str u.default_group) ::
  ("is_active", .bool u.is_active) ::
  ("is_bot", .bool u.is_bot) ::
  ("is_deleted", .bool u.is_deleted) ::
  ("is_online", .bool u.is_online) ::
  ("is_supporter", .bool u.is_supporter) ::
  optEntry "last_visit" u.last_visit (
  ("pm_friends_only", .bool u.pm_friends_only) ::
  optEntry "profile_colour" (u.profile_color.map Json.str) (
  ("id", .num u.user_id) ::
  ("username", .str u.username) ::
  optEntry "account_history" u.account_history (
  optEntry "badges" u.badges (
  optEntry "beatmap_playcounts_count" (u.beatmap_playcounts_count.map (fun n => Json.num n)) (
  optEntry "country" (u.country.map Json.str) (
  optEntry "cover" u.cover (
  optEntry "favourite_beatmapset_count" (u.favourite_mapset_count.map (fun n => Json.num n)) (
  optEntry "follower_count" (u.follower_count.map (fun n => Json.num n)) (
  optEntry "graveyard_beatmapset_count" (u.graveyard_mapset_count.map (fun n => Json.num n)) (
  optEntry "groups" u.groups (
  optEntry "is_admin" (u.is_admin.map Json.bool) (
  optEntry "is_bng" (u.is_bng.map Json.bool) (
  optEntry "is_full_bn" (u.is_full_bn.map Json.bool) (
  optEntry "is_gmt" (u.is_gmt.map Json.bool) (
  optEntry "is_limited_bn" (u.is_limited_bn.map Json.bool) (
  optEntry "is_moderator" (u.is_moderator.map Json.bool) (
  optEntry "is_nat" (u.is_nat.map Json.bool) (
  optEntry "is_silenced" (u.is_silenced.map Json.bool) (
  optEntry "loved_beatmapset_count" (u.loved_mapset_count.map (fun n => Json.num n)) (
  optEntry "user_achievements" u.medals (
  optEntry "monthly_playcounts" u.monthly_playcounts (
  optEntry "page" u.page (
  optEntry "previous_usernames" u.previous_usernames (
  optEntry "rank_history" u.rank_history (
  optEntry "ranked_beatmapset_count" (u.ranked_mapset_count.map (fun n => Json.num n)) (
  optEntry "replays_watched_counts" u.replays_watched_counts (
  optEntry "scores_best_count" (u.scores_best_count.map (fun n => Json.num n)) (
  optEntry "scores_first_count" (u.scores_first_count.map (fun n => Json.num n)) (
  optEntry "scores_recent_count" (u.scores_recent_count.map (fun n => Json.num n)) (
  optEntry "support_level" (u.support_level.map (fun n => Json.num n)) (
  optEntry "pending_beatmapset_count" (u.pending_mapset_count.map (fun n => Json.num n))
  [])))))))))))))))))))))))))))))))

/-- Modelled from the spec: the derived one-to-one field-mapped decode of the
nested `user` object (§4.1: "non-statistics fields come from the nested
`user` object"; the derive itself is in `src/model/user.rs`, outside the
excerpt).  Required fields fail as missing when absent; `Option` fields are
`none` when absent or `null`; the `statistics` slot starts empty; unknown
keys are ignored. -/
def decodeUserRest (fields : List (String × Json)) : Except DeErr UserCompact := do
  let avatar_url ← reqField decStr "avatar_url" fields
  let country_code ← reqField decStr "country_code" fields
  let default_group ← reqField decStr "default_group" fields
  let is_active ← reqField decBool "is_active" fields
  let is_bot ← reqField decBool "is_bot" fields
  let is_deleted ← reqField decBool "is_deleted" fields
  let is_online ← reqField decBool "is_online" fields
  let is_supporter ← reqField decBool "is_supporter" fields
  let last_visit ← optField decJson "last_visit" fields
  let pm_friends_only ← reqField decBool "pm_friends_only" fields
  let profile_color ← optField decStr "profile_colour" fields
  let user_id ← reqField decU32 "id" fields
  let username ← reqField decStr "username" fields
  let account_history ← optField decJson "account_history" fields
  let badges ← optField decJson "badges" fields
  let beatmap_playcounts_count ← optField decU32 "beatmap_playcounts_count" fields
  let country ← optField decStr "country" fields
  let cover ← optField decJson "cover" fields
  let favourite_mapset_count ← optField decU32 "favourite_beatmapset_count" fields
  let follower_count ← optField decU32 "follower_count" fields
  let graveyard_mapset_count ← optField decU32 "graveyard_beatmapset_count" fields
  let groups ← optField decJson "groups" fields
  let is_admin ← optField decBool "is_admin" fields
  let is_bng ← optField decBool "is_bng" fields
  let is_full_bn ← optField decBool "is_full_bn" fields
  let is_gmt ← optField decBool "is_gmt" fields
  let is_limited_bn ← optField decBool "is_limited_bn" fields
  let is_moderator ← optField decBool "is_moderator" fields
  let is_nat ← optField decBool "is_nat" fields
  let is_silenced ← optField decBool "is_silenced" fields
  let loved_mapset_count ← optField decU32 "loved_beatmapset_count" fields
  let medals ← optField decJson "user_achievements" fields
  let monthly_playcounts ← optField decJson "monthly_playcounts" fields
  let page ← optField decJson "page" fields
  let previous_usernames ← optField decJson "previous_usernames" fields
  let rank_history ← optField decJson "rank_history" fields
  let ranked_mapset_count ← optField decU32 "ranked_beatmapset_count" fields
  let replays_watched_counts ← optField decJson "replays_watched_counts" fields
  let scores_best_count ← optField decU32 "scores_best_count" fields
  let scores_first_count ← optField decU32 "scores_first_count" fields
  let scores_recent_count ← optField decU32 "scores_recent_count" fields
  let support_level ← optField decU8 "support_level" fields
  let pending_mapset_count ← optField decU32 "pending_beatmapset_count" fields
  .ok {
    avatar_url, country_code, default_group, is_active, is_bot, is_deleted,
    is_online, is_supporter, last_visit, pm_friends_only, profile_color,
    user_id, username, account_history, badges, beatmap_playcounts_count,
    country, cover, favourite_mapset_count, follower_count,
    graveyard_mapset_count, groups, is_admin, is_bng, is_full_bn, is_gmt,
    is_limited_bn, is_moderator, is_nat, is_silenced, loved_mapset_count,
    medals, monthly_playcounts, page, previous_usernames, rank_history,
    ranked_mapset_count, replays_watched_counts, scores_best_count,
    scores_first_count, scores_recent_count, statistics := none,
    support_level, pending_mapset_count }

/-- Decode of the `user` key's value (`map.next_value::<Option<UserCompact>>()`
in `visit_map`, line 194): `null` is `None`, an object is decoded as a
`UserCompact`, anything else is an invalid-type error. -/
def decOptUser : Json → Except DeErr (Option UserCompact)
  | .null => .ok none
  | .obj fields => (decodeUserRest fields).map some
  | _ => .error .typeMismatch

/-- The mutable locals of `UserStatsVisitor::visit_map` (lines 137-152): one
optional slot per recognized key, all starting empty. -/
structure StatsBuilder where
  accuracy : Option Rat := none
  country_rank : Option Nat := none
  global_rank : Option Nat := none
  grade_counts : Option Json := none
  is_ranked : Option Bool := none
  level : Option Json := none
  max_combo : Option Nat := none
  playcount : Option Nat := none
  playtime : Option Nat := none
  pp : Option Rat := none
  ranked_score : Option Nat := none
  replays_watched : Option Nat := none
  total_hits : Option Nat := none
  total_score : Option Nat := none
  user : Option UserCompact := none

/-- One iteration of the `while let Some(key) = map.next_key()?` loop in
`UserStatsVisitor::visit_map` (lines 154-199).  `.replace(...)` arms store
`some` of the decoded value; the `country_rank`/`global_rank`/`user` arms
assign the decoded `Option` directly; `play_time`/`pp` decode an `Option`
and fall back to zero on `null` (`unwrap_or_default`); unrecognized keys are
skipped (`IgnoredAny`). -/
def stepEntry (b : StatsBuilder) : String × Json → Except DeErr StatsBuilder
  | ("hit_accuracy", v) => do let x ← decF32 v; .ok { b with accuracy := some x }
  | ("country_rank", v) => do let x ← decOptU32 v; .ok { b with country_rank := x }
  | ("global_rank", v) => do let x ← decOptU32 v; .ok { b with global_rank := x }
  | ("grade_counts", v) => do let x ← decJson v; .ok { b with grade_counts := some x }
  | ("is_ranked", v) => do let x ← decBool v; .ok { b with is_ranked := some x }
  | ("level", v) => do let x ← decJson v; .ok { b with level := some x }
  | ("maximum_combo", v) => do let x ← decU32 v; .ok { b with max_combo := some x }
  | ("play_count", v) => do let x ← decU32 v; .ok { b with playcount := some x }
  | ("play_time", v) => do let x ← decOptU32 v; .ok { b with playtime := some (x.getD 0) }
  | ("pp", v) => do let x ← decOptF32 v; .ok { b with pp := some (x.getD 0) }
  | ("ranked_score", v) => do let x ← decU64 v; .ok { b with ranked_score := some x }
  | ("replays_watched_by_others", v) => do
    let x ← decU32 v; .ok { b with replays_watched := some x }
  | ("total_hits", v) => do let x ← decU64 v; .ok { b with total_hits := some x }
  | ("total_score", v) => do let x ← decU64 v; .ok { b with total_score := some x }
  | ("user", v) => do let x ← decOptUser v; .ok { b with user := x }
  | (_, _) => .ok b

/-- `opt.ok_or_else(|| Error::missing_field(name))?`. -/
def reqSlot {α : Type} (o : Option α) (name : String) : Except DeErr α :=
  match o with
  | some x => .ok x
  | none => .error (.missingField name)

/-- The required-field checks and record assembly closing
`UserStatsVisitor::visit_map` (lines 201-235), in source order. -/
def finalizeStats (b : StatsBuilder) : Except DeErr UserCompact := do
  let accuracy ← reqSlot b.accuracy "hit_accuracy"
  let grade_counts ← reqSlot b.grade_counts "grade_counts"
  let is_ranked ← reqSlot b.is_ranked "is_ranked"
  let level ← reqSlot b.level "level"
  let max_combo ← reqSlot b.max_combo "maximum_combo"
  let playcount ← reqSlot b.playcount "play_count"
  let playtime ← reqSlot b.playtime "play_time"
  let pp ← reqSlot b.pp "pp"
  let ranked_score ← reqSlot b.ranked_score "ranked_score"
  let replays_watched ← reqSlot b.replays_watched "replays_watched_by_others"
  let total_hits ← reqSlot b.total_hits "total_hits"
  let total_score ← reqSlot b.total_score "total_score"
  let user ← reqSlot b.user "user"
  .ok { user with
        statistics := some {
          accuracy, country_rank := b.country_rank, global_rank := b.global_rank,
          grade_counts, is_ranked, level, max_combo, playcount, playtime, pp,
          ranked_score, replays_watched, total_hits, total_score } }

/-- `UserStatsVisitor::visit_map` (lines 136-237): fold the flat
statistics-plus-`user` envelope through the key loop, then validate and
assemble the merged `UserCompact`. -/
def UserStatsVisitor_visit_map (fields : List (String × Json)) :
    Except DeErr UserCompact := do
  let b ← fields.foldlM stepEntry {}
  finalizeStats b

/-- `UserCompactBorrowed::serialize` (lines 248-281): `none` encodes the
`stats.unwrap()’s panic on an entity without statistics; otherwise the flat
envelope is emitted with fields in exact call order (`hit_accuracy`, the two
optional ranks only when present, the remaining ten statistics fields, then
the `user` payload). -/
def UserCompactBorrowed_serialize (u : UserCompact) :
    Option (List (String × Json)) :=
  match u.statistics with
  | none => none
  | some stats => some (
      ("hit_accuracy", .num stats.accuracy) ::
      optEntry "country_rank" (stats.country_rank.map (fun n => Json.num n)) (
      optEntry "global_rank" (stats.global_rank.map (fun n => Json.num n)) (
      ("grade_counts", stats.grade_counts) ::
      ("is_ranked", .bool stats.is_ranked) ::
      ("level", stats.level) ::
      ("maximum_combo", .num stats.max_combo) ::
      ("play_count", .num stats.playcount) ::
      ("play_time", .num stats.playtime) ::
      ("pp", .num stats.pp) ::
      ("ranked_score", .num stats.ranked_score) ::
      ("replays_watched_by_others", .num stats.replays_watched) ::
      ("total_hits", .num stats.total_hits) ::
      ("total_score", .num stats.total_score) ::
      ("user", .obj (renderRest u)) :: [])))

/-- `deserialize_user_stats_vec` (lines 239-244) together with
`UserStatsVecVisitor`/`UserCompactWrapper` (lines 99-125): each sequence
element must be a map and is decoded by `UserStatsVisitor`; elements keep
their source order. -/
def deserialize_user_stats_vec : Json → Except DeErr (List UserCompact)
  | .arr elems =>
    elems.mapM fun j =>
      match j with
      | .obj fields => UserStatsVisitor_visit_map fields
      | _ => .error .typeMismatch
  | _ => .error .typeMismatch

/-- One iteration of the cursor visitor's key loop (lines 552-561): a
`page` key replaces the slot with its decoded `u32` value, anything else is
ignored. -/
def cursorStep (acc : Option Nat) (kv : String × Json) :
    Except DeErr (Option Nat) :=
  match kv with
  | ("page", v) => do let x ← decU32 v; .ok (some x)
  | (_, _) => .ok acc

/-- The `visit_map` arm of `RankingsCursorVisitor` (lines 549-564): scan the
object for `page` keys, ignore everything else, and fail with a
missing-field error when no `page` key was seen. -/
def rankingsCursorVisitMap (fields : List (String × Json)) :
    Except DeErr (Option Nat) := do
  let page ← fields.foldlM cursorStep none
  match page with
  | some p => .ok (some p)
  | none => .error (.missingField "page")

/-- `deserialize_rankings_cursor` (lines 567-569) dispatching into
`RankingsCursorVisitor` (lines 528-565): `null` is `None` (`visit_none`); a
number routed to `visit_u64` must be a non-negative integer representable as
a `u64` and is then truncated by the `v as u32` cast (`% 2^32`); an object
goes through the `page`-key scan; every other JSON kind hits a default
visitor method and fails as an invalid type. -/
def deserialize_rankings_cursor : Json → Except DeErr (Option Nat)
  | .null => .ok none
  | .num q =>
    if q.den = 1 ∧ 0 ≤ q.num ∧ q.num < 18446744073709551616 then
      .ok (some (q.num.toNat % 4294967296))
    else .error .typeMismatch
  | .obj fields => rankingsCursorVisitMap fields
  | _ => .error .typeMismatch

/-- The dispatchable leaderboard page (`struct Rankings`, lines 78-97). -/
structure Rankings where
  mode : Option GameMode
  next_page : Option Nat
  ranking : List UserCompact
  ranking_type : Option RankingType
  total : Nat

/-- One country-ranking row (`struct CountryRanking`, lines 34-51). -/
structure CountryRanking where
  active_users : Nat
  country : String
  country_code : String
  playcount : Nat
  pp : Rat
  ranked_score : Nat

/-- The country-aggregate page (`struct CountryRankings`, lines 53-67). -/
structure CountryRankings where
  next_page : Option Nat
  ranking : List CountryRanking
  total : Nat

/-- A news post (`struct NewsPost`, `src/model/news.rs` lines 34-52;
timestamps carried as raw wire values). -/
structure NewsPost where
  post_id : Nat
  author : String
  edit_url : String
  first_image : String
  published_at : Json
  updated_at : Option Json
  slug : String
  title : String
  preview : Option String

/-- `struct NewsSearch` (`news.rs` lines 63-68). -/
structure NewsSearch where
  cursor : Option Cursor
  limit : Nat

/-- `struct NewsSidebar` (`news.rs` lines 70-76). -/
structure NewsSidebar where
  current_year : Nat
  posts : List NewsPost
  years : List Nat

/-- The opaque-token news page (`struct News`, `news.rs` lines 7-16). -/
structure News where
  cursor : Option Cursor
  posts : List NewsPost
  search : NewsSearch
  sidebar : NewsSidebar

/-- Modelled from the spec: the logical request a `get_next` call hands to
the transport collaborator (§6: built from resource kind, mode,
cursor-or-token, subkind; the `Osu` request builders live outside the
excerpt). -/
inductive ApiRequest where
  | performanceRankings (mode : GameMode) (page : Nat)
  | scoreRankings (mode : GameMode) (page : Nat)
  | countryRankings (mode : GameMode) (page : Nat)
  | news (cursor : Cursor)

/-- Observable outcome of a `get_next` call: the "no more data" sentinel
(Rust `None`, no transport call made), an unreachable-state abort
(`unreachable!`), or exactly one issued logical request whose result is
forwarded. -/
inductive GetNextResult where
  | noMore
  | panic
  | request (r : ApiRequest)

/-- `Rankings::get_next` (lines 513-525): the three `?` early returns on
`next_page`/`mode`/`ranking_type`, then the match on the ranking subkind —
one performance- or score-ranking request for the stored page and mode, or
`unreachable!` for the chart/country subkinds. -/
def Rankings.get_next (r : Rankings) : GetNextResult :=
  match r.next_page with
  | none => .noMore
  | some page =>
    match r.mode with
    | none => .noMore
    | some mode =>
      match r.ranking_type with
      | none => .noMore
      | some kind =>
        match kind with
        | .Performance => .request (.performanceRankings mode page)
        | .Score => .request (.scoreRankings mode page)
        | .Charts => .panic
        | .Country => .panic

/-- `CountryRankings::get_next` (lines 69-76): `None` when `next_page` is
empty, otherwise one country-rankings request for the stored page and the
supplied mode. -/
def CountryRankings.get_next (c : CountryRankings) (mode : GameMode) :
    GetNextResult :=
  match c.next_page with
  | none => .noMore
  | some page => .request (.countryRankings mode page)

/-- `News::get_next` (`news.rs` lines 26-32): `None` when no cursor is
stored, otherwise one news request replaying the stored opaque token. -/
def News.get_next (n : News) : GetNextResult :=
  match n.cursor with
  | none => .noMore
  | some cur => .request (.news cur)

/-- The derived `Deserialize` for `struct Rankings` with its serde
attributes: `mode` and `ranking_type` default to `None` when absent, the
`cursor` key feeds `deserialize_rankings_cursor` and defaults to `None` when
absent, `ranking` goes through `deserialize_user_stats_vec`, `total` is a
required `u32`, and unknown keys are ignored. -/
def Rankings.deserialize (fields : List (String × Json)) :
    Except DeErr Rankings := do
  let mode ← optField decGameMode "mode" fields
  let next_page ←
    match findVal "cursor" fields with
    | none => .ok none
    | some j => deserialize_rankings_cursor j
  let ranking ← reqField deserialize_user_stats_vec "ranking" fields
  let ranking_type ← optField decRankingType "ranking_type" fields
  let total ← reqField decU32 "total" fields
  .ok { mode, next_page, ranking, ranking_type, total }

/-- Wire encoding of a nullable numeric field (`country_rank` absent vs
`null` vs value on the wire). -/
def encNullableNum (o : Option Nat) : Json :=
  match o with
  | some n => .num n
  | none => .null

/-- Wire encoding of a nullable `f32` field (`pp`). -/
def encNullableRat (o : Option Rat) : Json :=
  match o with
  | some q => .num q
  | none => .null

/-- A well-typed flat statistics envelope with every key independently
present or absent; `renderWire` turns it into the wire object offered to
`UserStatsVisitor`.  `country_rank`/`global_rank`/`play_time`/`pp` may
additionally be present-but-`null` (inner `Option`). -/
structure WireStats where
  hit_accuracy : Option Rat := none
  country_rank : Option (Option Nat) := none
  global_rank : Option (Option Nat) := none
  grade_counts : Option Json := none
  is_ranked : Option Bool := none
  level : Option Json := none
  maximum_combo : Option Nat := none
  play_count : Option Nat := none
  play_time : Option (Option Nat) := none
  pp : Option (Option Rat) := none
  ranked_score : Option Nat := none
  replays_watched_by_others : Option Nat := none
  total_hits : Option Nat := none
  total_score : Option Nat := none
  user : Option UserCompact := none

/-- Render a `WireStats` as the flat wire object: each present key emitted
once under its wire name. -/
def renderWire (w : WireStats) : List (String × Json) :=
  optEntry "hit_accuracy" (w.hit_accuracy.map Json.num) (
  optEntry "country_rank" (w.country_rank.map encNullableNum) (
  optEntry "global_rank" (w.global_rank.map encNullableNum) (
  optEntry "grade_counts" w.grade_counts (
  optEntry "is_ranked" (w.is_ranked.map Json.bool) (
  optEntry "level" w.level (
  optEntry "maximum_combo" (w.maximum_combo.map (fun n => Json.num n)) (
  optEntry "play_count" (w.play_count.map (fun n => Json.num n)) (
  optEntry "play_time" (w.play_time.map encNullableNum) (
  optEntry "pp" (w.pp.map encNullableRat) (
  optEntry "ranked_score" (w.ranked_score.map (fun n => Json.num n)) (
  optEntry "replays_watched_by_others"
    (w.replays_watched_by_others.map (fun n => Json.num n)) (
  optEntry "total_hits" (w.total_hits.map (fun n => Json.num n)) (
  optEntry "total_score" (w.total_score.map (fun n => Json.num n)) (
  optEntry "user" (w.user.map (fun u => Json.obj (renderRest u)))
  []))))))))))))))

/-- Representability conditions on a `WireStats` envelope: numeric values in
their Rust ranges and a well-formed nested user. -/
def WireStats.wfB (w : WireStats) : Bool :=
  (w.country_rank.getD none).getD 0 < 4294967296 &&
  (w.global_rank.getD none).getD 0 < 4294967296 &&
  w.maximum_combo.getD 0 < 4294967296 &&
  w.play_count.getD 0 < 4294967296 &&
  (w.play_time.getD none).getD 0 < 4294967296 &&
  w.ranked_score.getD 0 < 18446744073709551616 &&
  w.replays_watched_by_others.getD 0 < 4294967296 &&
  w.total_hits.getD 0 < 18446744073709551616 &&
  w.total_score.getD 0 < 18446744073709551616 &&
  w.user.all UserCompact.wfB

/-- Builder state reached after the key loop has consumed `renderWire w`:
present keys fill their slot (with the `play_time`/`pp` null-to-zero
fallback and the statistics stripped from the nested user), absent keys
leave it empty. -/
def builderOf (w : WireStats) : StatsBuilder where
  accuracy := w.hit_accuracy
  country_rank := w.country_rank.join
  global_rank := w.global_rank.join
  grade_counts := w.grade_counts
  is_ranked := w.is_ranked
  level := w.level
  max_combo := w.maximum_combo
  playcount := w.play_count
  playtime := w.play_time.map (fun o => o.getD 0)
  pp := w.pp.map (fun o => o.getD 0)
  ranked_score := w.ranked_score
  replays_watched := w.replays_watched_by_others
  total_hits := w.total_hits
  total_score := w.total_score
  user := w.user.map (fun u => { u with statistics := none })

/-- Replace an optional slot when the wire key was present (`Option` slots
assigned directly by the visitor arms). -/
def setIf {α : Type} (new : Option α) (old : α) : α :=
  match new with
  | some x => x
  | none => old

@[simp] theorem exceptBind_ok {ε α β : Type} (x : α) (f : α → Except ε β) :
    (Except.ok x : Except ε α) >>= f = f x := rfl

@[simp] theorem exceptMap_ok {ε α β : Type} (f : α → β) (x : α) :
    Except.map f (Except.ok x : Except ε α) = .ok (f x) := rfl

@[simp] theorem exceptMap_error {ε α β : Type} (f : α → β) (e : ε) :
    Except.map f (Except.error e : Except ε α) = .error e := rfl

@[simp] theorem exceptBind_error {ε α β : Type} (e : ε) (f : α → Except ε β) :
    (Except.error e : Except ε α) >>= f = Except.error e := rfl

@[simp] theorem oupd_some {α : Type} (x : α) (old : Option α) :
    oupd (some x) old = some x := rfl

@[simp] theorem oupd_none_left {α : Type} (old : Option α) :
    oupd none old = old := rfl

@[simp] theorem oupd_none_right {α : Type} (v : Option α) :
    oupd v none = v := by
  cases v <;> rfl

@[simp] theorem setIf_some {α : Type} (x : α) (old : α) :
    setIf (some x) old = x := rfl

@[simp] theorem setIf_none {α : Type} (old : α) :
    setIf none old = old := rfl

@[simp] theorem findVal_nil (n : String) : findVal n [] = none := rfl

theorem findVal_cons_ne {k n : String} (h : ¬(k = n)) (v : Json)
    (rest : List (String × Json)) :
    findVal n ((k, v) :: rest) = findVal n rest := by
  simp [findVal, h]

@[simp] theorem findVal_cons_self (n : String) (v : Json)
    (rest : List (String × Json)) :
    findVal n ((n, v) :: rest) = some v := by
  simp [findVal]

theorem findVal_optEntry_ne {k n : String} (h : ¬(k = n)) (v : Option Json)
    (rest : List (String × Json)) :
    findVal n (optEntry k v rest) = findVal n rest := by
  cases v <;> simp [optEntry, findVal, h]

@[simp] theorem findVal_optEntry_self (n : String) (v : Option Json)
    (rest : List (String × Json)) :
    findVal n (optEntry n v rest) = oupd v (findVal n rest) := by
  cases v <;> simp [optEntry, findVal, oupd]

theorem decU32_natCast (n : Nat) (h : n < 4294967296) :
    decU32 (.num n) = .ok n := by
  simp [decU32]
  omega

theorem decU64_natCast (n : Nat) (h : n < 18446744073709551616) :
    decU64 (.num n) = .ok n := by
  simp [decU64]
  omega

theorem decU8_natCast (n : Nat) (h : n < 256) :
    decU8 (.num n) = .ok n := by
  simp [decU8]
  omega

theorem reqField_str {k : String} {fs : List (String × Json)} {s : String}
    (h : findVal k fs = some (.str s)) : reqField decStr k fs = .ok s := by
  simp [reqField, h, decStr]

theorem reqField_bool {k : String} {fs : List (String × Json)} {b : Bool}
    (h : findVal k fs = some (.bool b)) : reqField decBool k fs = .ok b := by
  simp [reqField, h, decBool]

theorem reqField_u32 {k : String} {fs : List (String × Json)} {n : Nat}
    (h : findVal k fs = some (.num n)) (hb : n < 4294967296) :
    reqField decU32 k fs = .ok n := by
  simp [reqField, h, decU32_natCast n hb]

theorem optField_str {k : String} {fs : List (String × Json)}
    {o : Option String} (h : findVal k fs = o.map Json.str) :
    optField decStr k fs = .ok o := by
  cases o <;> simp [optField, h, decStr]

theorem optField_bool {k : String} {fs : List (String × Json)}
    {o : Option Bool} (h : findVal k fs = o.map Json.bool) :
    optField decBool k fs = .ok o := by
  cases o <;> simp [optField, h, decBool]

set_option maxRecDepth 4096 in
theorem optField_u32 {k : String} {fs : List (String × Json)} {o : Option Nat}
    (h : findVal k fs = o.map (fun n => Json.num n))
    (hb : o.getD 0 < 4294967296) :
    optField decU32 k fs = .ok o := by
  cases o with
  | none => simp [optField, h]
  | some n =>
    simp at h hb
    simp only [optField, h]
    rw [decU32_natCast n hb]
    rfl

set_option maxRecDepth 4096 in
theorem optField_u8 {k : String} {fs : List (String × Json)} {o : Option Nat}
    (h : findVal k fs = o.map (fun n => Json.num n)) (hb : o.getD 0 < 256) :
    optField decU8 k fs = .ok o := by
  cases o with
  | none => simp [optField, h]
  | some n =>
    simp at h hb
    simp only [optField, h]
    rw [decU8_natCast n hb]
    rfl

theorem optField_json {k : String} {fs : List (String × Json)}
    {o : Option Json} (h : findVal k fs = o)
    (hn : o.all (fun j => !j.isNull) = true) :
    optField decJson k fs = .ok o := by
  cases o with
  | none => simp [optField, h]
  | some j =>
    cases j <;> simp_all [optField, decJson, Json.isNull]

theorem fv_avatar_url (u : UserCompact) :
    findVal "avatar_url" (renderRest u) = some (.str u.avatar_url) := by
  simp [renderRest, findVal_cons_ne, findVal_optEntry_ne]

theorem ur_avatar_url (u : UserCompact) :
    reqField decStr "avatar_url" (renderRest u) = .ok u.avatar_url :=
  reqField_str (fv_avatar_url u)

theorem fv_country_code (u : UserCompact) :
    findVal "country_code" (renderRest u) = some (.str u.country_code) := by
  simp [renderRest, findVal_cons_ne, findVal_optEntry_ne]

theorem ur_country_code (u : UserCompact) :
    reqField decStr "country_code" (renderRest u) = .ok u.country_code :=
  reqField_str (fv_country_code u)

theorem fv_default_group (u : UserCompact) :
    findVal "default_group" (renderRest u) = some (.str u.default_group) := by
  simp [renderRest, findVal_cons_ne, findVal_optEntry_ne]

theorem ur_default_group (u : UserCompact) :
    reqField decStr "default_group" (renderRest u) = .ok u.default_group :=
  reqField_str (fv_default_group u)

theorem fv_is_active (u : UserCompact) :
    findVal "is_active" (renderRest u) = some (.bool u.is_active) := by
  simp [renderRest, findVal_cons_ne, findVal_optEntry_ne]

theorem ur_is_active (u : UserCompact) :
    reqField decBool "is_active" (renderRest u) = .ok u.is_active :=
  reqField_bool (fv_is_active u)

theorem fv_is_bot (u : UserCompact) :
    findVal "is_bot" (renderRest u) = some (.bool u.is_bot) := by
  simp [renderRest, findVal_cons_ne, findVal_optEntry_ne]

theorem ur_is_bot (u : UserCompact) :
    reqField decBool "is_bot" (renderRest u) = .ok u.is_bot :=
  reqField_bool (fv_is_bot u)

theorem fv_is_deleted (u : UserCompact) :
    findVal "is_deleted" (renderRest u) = some (.bool u.is_deleted) := by
  simp [renderRest, findVal_cons_ne, findVal_optEntry_ne]

theorem ur_is_deleted (u : UserCompact) :
    reqField decBool "is_deleted" (renderRest u) = .ok u.is_deleted :=
  reqField_bool (fv_is_deleted u)

theorem fv_is_online (u : UserCompact) :
    findVal "is_online" (renderRest u) = some (.bool u.is_online) := by
  simp [renderRest, findVal_cons_ne, findVal_optEntry_ne]

theorem ur_is_online (u : UserCompact) :
    reqField decBool "is_online" (renderRest u) = .ok u.is_online :=
  reqField_bool (fv_is_online u)

theorem fv_is_supporter (u : UserCompact) :
    findVal "is_supporter" (renderRest u) = some (.bool u.is_supporter) := by
  simp [renderRest, findVal_cons_ne, findVal_optEntry_ne]

theorem ur_is_supporter (u : UserCompact) :
    reqField decBool "is_supporter" (renderRest u) = .ok u.is_supporter :=
  reqField_bool (fv_is_supporter u)

theorem fv_last_visit (u : UserCompact) :
    findVal "last_visit" (renderRest u) = u.last_visit := by
  simp [renderRest, findVal_cons_ne, findVal_optEntry_ne]

theorem ur_last_visit (u : UserCompact)
    (h : u.last_visit.all (fun j => !j.isNull) = true) :
    optField decJson "last_visit" (renderRest u) = .ok u.last_visit :=
  optField_json (fv_last_visit u) h

theorem fv_pm_friends_only (u : UserCompact) :
    findVal "pm_friends_only" (renderRest u) = some (.bool u.pm_friends_only) := by
  simp [renderRest, findVal_cons_ne, findVal_optEntry_ne]

theorem ur_pm_friends_only (u : UserCompact) :
    reqField decBool "pm_friends_only" (renderRest u) = .ok u.pm_friends_only :=
  reqField_bool (fv_pm_friends_only u)

theorem fv_profile_color (u : UserCompact) :
    findVal "profile_colour" (renderRest u) = u.profile_color.map Json.str := by
  simp [renderRest, findVal_cons_ne, findVal_optEntry_ne]

theorem ur_profile_color (u : UserCompact) :
    optField decStr "profile_colour" (renderRest u) = .ok u.profile_color :=
  optField_str (fv_profile_color u)

theorem fv_user_id (u : UserCompact) :
    findVal "id" (renderRest u) = some (.num u.user_id) := by
  simp [renderRest, findVal_cons_ne, findVal_optEntry_ne]

theorem ur_user_id (u : UserCompact) (h : u.user_id < 4294967296) :
    reqField decU32 "id" (renderRest u) = .ok u.user_id :=
  reqField_u32 (fv_user_id u) h

theorem fv_username (u : UserCompact) :
    findVal "username" (renderRest u) = some (.str u.username) := by
  simp [renderRest, findVal_cons_ne, findVal_optEntry_ne]

theorem ur_username (u : UserCompact) :
    reqField decStr "username" (renderRest u) = .ok u.username :=
  reqField_str (fv_username u)

theorem fv_account_history (u : UserCompact) :
    findVal "account_history" (renderRest u) = u.account_history := by
  simp [renderRest, findVal_cons_ne, findVal_optEntry_ne]

theorem ur_account_history (u : UserCompact)
    (h : u.account_history.all (fun j => !j.isNull) = true) :
    optField decJson "account_history" (renderRest u) = .ok u.account_history :=
  optField_json (fv_account_history u) h

theorem fv_badges (u : UserCompact) :
    findVal "badges" (renderRest u) = u.badges := by
  simp [renderRest, findVal_cons_ne, findVal_optEntry_ne]

theorem ur_badges (u : UserCompact)
    (h : u.badges.all (fun j => !j.isNull) = true) :
    optField decJson "badges" (renderRest u) = .ok u.badges :=
  optField_json (fv_badges u) h

theorem fv_beatmap_playcounts_count (u : UserCompact) :
    findVal "beatmap_playcounts_count" (renderRest u) = u.beatmap_playcounts_count.map (fun n => Json.num n) := by
  simp [renderRest, findVal_cons_ne, findVal_optEntry_ne]

theorem ur_beatmap_playcounts_count (u : UserCompact) (h : u.beatmap_playcounts_count.getD 0 < 4294967296) :
    optField decU32 "beatmap_playcounts_count" (renderRest u) = .ok u.beatmap_playcounts_count :=
  optField_u32 (fv_beatmap_playcounts_count u) h

theorem fv_country (u : UserCompact) :
    findVal "country" (renderRest u) = u.country.map Json.str := by
  simp [renderRest, findVal_cons_ne, findVal_optEntry_ne]

theorem ur_country (u : UserCompact) :
    optField decStr "country" (renderRest u) = .ok u.country :=
  optField_str (fv_country u)

theorem fv_cover (u : UserCompact) :
    findVal "cover" (renderRest u) = u.cover := by
  simp [renderRest, findVal_cons_ne, findVal_optEntry_ne]

theorem ur_cover (u : UserCompact)
    (h : u.cover.all (fun j => !j.isNull) = true) :
    optField decJson "cover" (renderRest u) = .ok u.cover :=
  optField_json (fv_cover u) h

theorem fv_favourite_mapset_count (u : UserCompact) :
    findVal "favourite_beatmapset_count" (renderRest u) = u.favourite_mapset_count.map (fun n => Json.num n) := by
  simp [renderRest, findVal_cons_ne, findVal_optEntry_ne]

theorem ur_favourite_mapset_count (u : UserCompact) (h : u.favourite_mapset_count.getD 0 < 4294967296) :
    optField decU32 "favourite_beatmapset_count" (renderRest u) = .ok u.favourite_mapset_count :=
  optField_u32 (fv_favourite_mapset_count u) h

theorem fv_follower_count (u : UserCompact) :
    findVal "follower_count" (renderRest u) = u.follower_count.map (fun n => Json.num n) := by
  simp [renderRest, findVal_cons_ne, findVal_optEntry_ne]

theorem ur_follower_count (u : UserCompact) (h : u.follower_count.getD 0 < 4294967296) :
    optField decU32 "follower_count" (renderRest u) = .ok u.follower_count :=
  optField_u32 (fv_follower_count u) h

theorem fv_graveyard_mapset_count (u : UserCompact) :
    findVal "graveyard_beatmapset_count" (renderRest u) = u.graveyard_mapset_count.map (fun n => Json.num n) := by
  simp [renderRest, findVal_cons_ne, findVal_optEntry_ne]

theorem ur_graveyard_mapset_count (u : UserCompact) (h : u.graveyard_mapset_count.getD 0 < 4294967296) :
    optField decU32 "graveyard_beatmapset_count" (renderRest u) = .ok u.graveyard_mapset_count :=
  optField_u32 (fv_graveyard_mapset_count u) h

theorem fv_groups (u : UserCompact) :
    findVal "groups" (renderRest u) = u.groups := by
  simp [renderRest, findVal_cons_ne, findVal_optEntry_ne]

theorem ur_groups (u : UserCompact)
    (h : u.groups.all (fun j => !j.isNull) = true) :
    optField decJson "groups" (renderRest u) = .ok u.groups :=
  optField_json (fv_groups u) h

theorem fv_is_admin (u : UserCompact) :
    findVal "is_admin" (renderRest u) = u.is_admin.map Json.bool := by
  simp [renderRest, findVal_cons_ne, findVal_optEntry_ne]

theorem ur_is_admin (u : UserCompact) :
    optField decBool "is_admin" (renderRest u) = .ok u.is_admin :=
  optField_bool (fv_is_admin u)

theorem fv_is_bng (u : UserCompact) :
    findVal "is_bng" (renderRest u) = u.is_bng.map Json.bool := by
  simp [renderRest, findVal_cons_ne, findVal_optEntry_ne]

theorem ur_is_bng (u : UserCompact) :
    optField decBool "is_bng" (renderRest u) = .ok u.is_bng :=
  optField_bool (fv_is_bng u)

theorem fv_is_full_bn (u : UserCompact) :
    findVal "is_full_bn" (renderRest u) = u.is_full_bn.map Json.bool := by
  simp [renderRest, findVal_cons_ne, findVal_optEntry_ne]

theorem ur_is_full_bn (u : UserCompact) :
    optField decBool "is_full_bn" (renderRest u) = .ok u.is_full_bn :=
  optField_bool (fv_is_full_bn u)

theorem fv_is_gmt (u : UserCompact) :
    findVal "is_gmt" (renderRest u) = u.is_gmt.map Json.bool := by
  simp [renderRest, findVal_cons_ne, findVal_optEntry_ne]

theorem ur_is_gmt (u : UserCompact) :
    optField decBool "is_gmt" (renderRest u) = .ok u.is_gmt :=
  optField_bool (fv_is_gmt u)

theorem fv_is_limited_bn (u : UserCompact) :
    findVal "is_limited_bn" (renderRest u) = u.is_limited_bn.map Json.bool := by
  simp [renderRest, findVal_cons_ne, findVal_optEntry_ne]

theorem ur_is_limited_bn (u : UserCompact) :
    optField decBool "is_limited_bn" (renderRest u) = .ok u.is_limited_bn :=
  optField_bool (fv_is_limited_bn u)

theorem fv_is_moderator (u : UserCompact) :
    findVal "is_moderator" (renderRest u) = u.is_moderator.map Json.bool := by
  simp [renderRest, findVal_cons_ne, findVal_optEntry_ne]

theorem ur_is_moderator (u : UserCompact) :
    optField decBool "is_moderator" (renderRest u) = .ok u.is_moderator :=
  optField_bool (fv_is_moderator u)

theorem fv_is_nat (u : UserCompact) :
    findVal "is_nat" (renderRest u) = u.is_nat.map Json.bool := by
  simp [renderRest, findVal_cons_ne, findVal_optEntry_ne]

theorem ur_is_nat (u : UserCompact) :
    optField decBool "is_nat" (renderRest u) = .ok u.is_nat :=
  optField_bool (fv_is_nat u)

theorem fv_is_silenced (u : UserCompact) :
    findVal "is_silenced" (renderRest u) = u.is_silenced.map Json.bool := by
  simp [renderRest, findVal_cons_ne, findVal_optEntry_ne]

theorem ur_is_silenced (u : UserCompact) :
    optField decBool "is_silenced" (renderRest u) = .ok u.is_silenced :=
  optField_bool (fv_is_silenced u)

theorem fv_loved_mapset_count (u : UserCompact) :
    findVal "loved_beatmapset_count" (renderRest u) = u.loved_mapset_count.map (fun n => Json.num n) := by
  simp [renderRest, findVal_cons_ne, findVal_optEntry_ne]

theorem ur_loved_mapset_count (u : UserCompact) (h : u.loved_mapset_count.getD 0 < 4294967296) :
    optField decU32 "loved_beatmapset_count" (renderRest u) = .ok u.loved_mapset_count :=
  optField_u32 (fv_loved_mapset_count u) h

theorem fv_medals (u : UserCompact) :
    findVal "user_achievements" (renderRest u) = u.medals := by
  simp [renderRest, findVal_cons_ne, findVal_optEntry_ne]

theorem ur_medals (u : UserCompact)
    (h : u.medals.all (fun j => !j.isNull) = true) :
    optField decJson "user_achievements" (renderRest u) = .ok u.medals :=
  optField_json (fv_medals u) h

theorem fv_monthly_playcounts (u : UserCompact) :
    findVal "monthly_playcounts" (renderRest u) = u.monthly_playcounts := by
  simp [renderRest, findVal_cons_ne, findVal_optEntry_ne]

theorem ur_monthly_playcounts (u : UserCompact)
    (h : u.monthly_playcounts.all (fun j => !j.isNull) = true) :
    optField decJson "monthly_playcounts" (renderRest u) = .ok u.monthly_playcounts :=
  optField_json (fv_monthly_playcounts u) h

theorem fv_page (u : UserCompact) :
    findVal "page" (renderRest u) = u.page := by
  simp [renderRest, findVal_cons_ne, findVal_optEntry_ne]

theorem ur_page (u : UserCompact)
    (h : u.page.all (fun j => !j.isNull) = true) :
    optField decJson "page" (renderRest u) = .ok u.page :=
  optField_json (fv_page u) h

theorem fv_previous_usernames (u : UserCompact) :
    findVal "previous_usernames" (renderRest u) = u.previous_usernames := by
  simp [renderRest, findVal_cons_ne, findVal_optEntry_ne]

theorem ur_previous_usernames (u : UserCompact)
    (h : u.previous_usernames.all (fun j => !j.isNull) = true) :
    optField decJson "previous_usernames" (renderRest u) = .ok u.previous_usernames :=
  optField_json (fv_previous_usernames u) h

theorem fv_rank_history (u : UserCompact) :
    findVal "rank_history" (renderRest u) = u.rank_history := by
  simp [renderRest, findVal_cons_ne, findVal_optEntry_ne]

theorem ur_rank_history (u : UserCompact)
    (h : u.rank_history.all (fun j => !j.isNull) = true) :
    optField decJson "rank_history" (renderRest u) = .ok u.rank_history :=
  optField_json (fv_rank_history u) h

theorem fv_ranked_mapset_count (u : UserCompact) :
    findVal "ranked_beatmapset_count" (renderRest u) = u.ranked_mapset_count.map (fun n => Json.num n) := by
  simp [renderRest, findVal_cons_ne, findVal_optEntry_ne]

theorem ur_ranked_mapset_count (u : UserCompact) (h : u.ranked_mapset_count.getD 0 < 4294967296) :
    optField decU32 "ranked_beatmapset_count" (renderRest u) = .ok u.ranked_mapset_count :=
  optField_u32 (fv_ranked_mapset_count u) h

theorem fv_replays_watched_counts (u : UserCompact) :
    findVal "replays_watched_counts" (renderRest u) = u.replays_watched_counts := by
  simp [renderRest, findVal_cons_ne, findVal_optEntry_ne]

theorem ur_replays_watched_counts (u : UserCompact)
    (h : u.replays_watched_counts.all (fun j => !j.isNull) = true) :
    optField decJson "replays_watched_counts" (renderRest u) = .ok u.replays_watched_counts :=
  optField_json (fv_replays_watched_counts u) h

theorem fv_scores_best_count (u : UserCompact) :
    findVal "scores_best_count" (renderRest u) = u.scores_best_count.map (fun n => Json.num n) := by
  simp [renderRest, findVal_cons_ne, findVal_optEntry_ne]

theorem ur_scores_best_count (u : UserCompact) (h : u.scores_best_count.getD 0 < 4294967296) :
    optField decU32 "scores_best_count" (renderRest u) = .ok u.scores_best_count :=
  optField_u32 (fv_scores_best_count u) h

theorem fv_scores_first_count (u : UserCompact) :
    findVal "scores_first_count" (renderRest u) = u.scores_first_count.map (fun n => Json.num n) := by
  simp [renderRest, findVal_cons_ne, findVal_optEntry_ne]

theorem ur_scores_first_count (u : UserCompact) (h : u.scores_first_count.getD 0 < 4294967296) :
    optField decU32 "scores_first_count" (renderRest u) = .ok u.scores_first_count :=
  optField_u32 (fv_scores_first_count u) h

theorem fv_scores_recent_count (u : UserCompact) :
    findVal "scores_recent_count" (renderRest u) = u.scores_recent_count.map (fun n => Json.num n) := by
  simp [renderRest, findVal_cons_ne, findVal_optEntry_ne]

theorem ur_scores_recent_count (u : UserCompact) (h : u.scores_recent_count.getD 0 < 4294967296) :
    optField decU32 "scores_recent_count" (renderRest u) = .ok u.scores_recent_count :=
  optField_u32 (fv_scores_recent_count u) h

theorem fv_support_level (u : UserCompact) :
    findVal "support_level" (renderRest u) = u.support_level.map (fun n => Json.num n) := by
  simp [renderRest, findVal_cons_ne, findVal_optEntry_ne]

theorem ur_support_level (u : UserCompact) (h : u.support_level.getD 0 < 256) :
    optField decU8 "support_level" (renderRest u) = .ok u.support_level :=
  optField_u8 (fv_support_level u) h

theorem fv_pending_mapset_count (u : UserCompact) :
    findVal "pending_beatmapset_count" (renderRest u) = u.pending_mapset_count.map (fun n => Json.num n) := by
  simp [renderRest, findVal_cons_ne, findVal_optEntry_ne]

theorem ur_pending_mapset_count (u : UserCompact) (h : u.pending_mapset_count.getD 0 < 4294967296) :
    optField decU32 "pending_beatmapset_count" (renderRest u) = .ok u.pending_mapset_count :=
  optField_u32 (fv_pending_mapset_count u) h

/-- Decoding the serialized `user` payload of a representable entity
recovers every non-statistics field; the `statistics` slot comes back
empty. -/
theorem decodeUserRest_renderRest (u : UserCompact) (hw : u.wfB = true) :
    decodeUserRest (renderRest u) = .ok { u with statistics := none } := by
  simp only [UserCompact.wfB, Bool.and_eq_true, decide_eq_true_eq] at hw
  obtain ⟨⟨⟨⟨⟨⟨⟨⟨⟨⟨⟨⟨⟨⟨⟨⟨⟨⟨⟨⟨⟨⟨⟨hA_user_id, hA_beatmap_playcounts_count⟩, hA_favourite_mapset_count⟩, hA_follower_count⟩, hA_graveyard_mapset_count⟩, hA_loved_mapset_count⟩, hA_ranked_mapset_count⟩, hA_scores_best_count⟩, hA_scores_first_count⟩, hA_scores_recent_count⟩, hA_pending_mapset_count⟩, hA_support_level⟩, hA_last_visit⟩, hA_account_history⟩, hA_badges⟩, hA_cover⟩, hA_groups⟩, hA_medals⟩, hA_monthly_playcounts⟩, hA_page⟩, hA_previous_usernames⟩, hA_rank_history⟩, hA_replays_watched_counts⟩, hA_statistics⟩ := hw
  simp only [decodeUserRest, ur_avatar_url u,
    ur_country_code u,
    ur_default_group u,
    ur_is_active u,
    ur_is_bot u,
    ur_is_deleted u,
    ur_is_online u,
    ur_is_supporter u,
    ur_last_visit u hA_last_visit,
    ur_pm_friends_only u,
    ur_profile_color u,
    ur_user_id u hA_user_id,
    ur_username u,
    ur_account_history u hA_account_history,
    ur_badges u hA_badges,
    ur_beatmap_playcounts_count u hA_beatmap_playcounts_count,
    ur_country u,
    ur_cover u hA_cover,
    ur_favourite_mapset_count u hA_favourite_mapset_count,
    ur_follower_count u hA_follower_count,
    ur_graveyard_mapset_count u hA_graveyard_mapset_count,
    ur_groups u hA_groups,
    ur_is_admin u,
    ur_is_bng u,
    ur_is_full_bn u,
    ur_is_gmt u,
    ur_is_limited_bn u,
    ur_is_moderator u,
    ur_is_nat u,
    ur_is_silenced u,
    ur_loved_mapset_count u hA_loved_mapset_count,
    ur_medals u hA_medals,
    ur_monthly_playcounts u hA_monthly_playcounts,
    ur_page u hA_page,
    ur_previous_usernames u hA_previous_usernames,
    ur_rank_history u hA_rank_history,
    ur_ranked_mapset_count u hA_ranked_mapset_count,
    ur_replays_watched_counts u hA_replays_watched_counts,
    ur_scores_best_count u hA_scores_best_count,
    ur_scores_first_count u hA_scores_first_count,
    ur_scores_recent_count u hA_scores_recent_count,
    ur_support_level u hA_support_level,
    ur_pending_mapset_count u hA_pending_mapset_count,
    exceptBind_ok]

@[simp] theorem setIf_none_join {α : Type} (o : Option (Option α)) :
    setIf o none = o.join := by
  cases o <;> rfl

theorem fold_hit_accuracy (o : Option Rat) (b : StatsBuilder)
    (rest : List (String × Json)) :
    List.foldlM stepEntry b (optEntry "hit_accuracy" (o.map Json.num) rest) =
    List.foldlM stepEntry { b with accuracy := oupd o b.accuracy } rest := by
  cases o <;> rfl

theorem fold_country_rank (o : Option (Option Nat)) (h : (o.getD none).getD 0 < 4294967296) (b : StatsBuilder)
    (rest : List (String × Json)) :
    List.foldlM stepEntry b (optEntry "country_rank" (o.map encNullableNum) rest) =
    List.foldlM stepEntry { b with country_rank := setIf o b.country_rank } rest := by
  cases o with
  | none => rfl
  | some oo =>
    cases oo with
    | none => rfl
    | some n =>
      have hn : n < 4294967296 := by simpa using h
      simp [optEntry, List.foldlM_cons, stepEntry, encNullableNum, decOptU32,
        decU32_natCast n hn]

theorem fold_global_rank (o : Option (Option Nat)) (h : (o.getD none).getD 0 < 4294967296) (b : StatsBuilder)
    (rest : List (String × Json)) :
    List.foldlM stepEntry b (optEntry "global_rank" (o.map encNullableNum) rest) =
    List.foldlM stepEntry { b with global_rank := setIf o b.global_rank } rest := by
  cases o with
  | none => rfl
  | some oo =>
    cases oo with
    | none => rfl
    | some n =>
      have hn : n < 4294967296 := by simpa using h
      simp [optEntry, List.foldlM_cons, stepEntry, encNullableNum, decOptU32,
        decU32_natCast n hn]

theorem fold_grade_counts (o : Option Json) (b : StatsBuilder)
    (rest : List (String × Json)) :
    List.foldlM stepEntry b (optEntry "grade_counts" (o) rest) =
    List.foldlM stepEntry { b with grade_counts := oupd o b.grade_counts } rest := by
  cases o <;> rfl

theorem fold_is_ranked (o : Option Bool) (b : StatsBuilder)
    (rest : List (String × Json)) :
    List.foldlM stepEntry b (optEntry "is_ranked" (o.map Json.bool) rest) =
    List.foldlM stepEntry { b with is_ranked := oupd o b.is_ranked } rest := by
  cases o <;> rfl

theorem fold_level (o : Option Json) (b : StatsBuilder)
    (rest : List (String × Json)) :
    List.foldlM stepEntry b (optEntry "level" (o) rest) =
    List.foldlM stepEntry { b with level := oupd o b.level } rest := by
  cases o <;> rfl

theorem fold_maximum_combo (o : Option Nat) (h : o.getD 0 < 4294967296) (b : StatsBuilder)
    (rest : List (String × Json)) :
    List.foldlM stepEntry b (optEntry "maximum_combo" (o.map (fun n => Json.num n)) rest) =
    List.foldlM stepEntry { b with max_combo := oupd o b.max_combo } rest := by
  cases o with
  | none => rfl
  | some n =>
    have hn : n < 4294967296 := by simpa using h
    simp [optEntry, List.foldlM_cons, stepEntry, decU32_natCast n hn]

theorem fold_play_count (o : Option Nat) (h : o.getD 0 < 4294967296) (b : StatsBuilder)
    (rest : List (String × Json)) :
    List.foldlM stepEntry b (optEntry "play_count" (o.map (fun n => Json.num n)) rest) =
    List.foldlM stepEntry { b with playcount := oupd o b.playcount } rest := by
  cases o with
  | none => rfl
  | some n =>
    have hn : n < 4294967296 := by simpa using h
    simp [optEntry, List.foldlM_cons, stepEntry, decU32_natCast n hn]

theorem fold_play_time (o : Option (Option Nat)) (h : (o.getD none).getD 0 < 4294967296) (b : StatsBuilder)
    (rest : List (String × Json)) :
    List.foldlM stepEntry b (optEntry "play_time" (o.map encNullableNum) rest) =
    List.foldlM stepEntry { b with playtime := oupd (o.map (fun x => x.getD 0)) b.playtime } rest := by
  cases o with
  | none => rfl
  | some oo =>
    cases oo with
    | none => rfl
    | some n =>
      have hn : n < 4294967296 := by simpa using h
      simp [optEntry, List.foldlM_cons, stepEntry, encNullableNum, decOptU32,
        decU32_natCast n hn]

theorem fold_pp (o : Option (Option Rat)) (b : StatsBuilder)
    (rest : List (String × Json)) :
    List.foldlM stepEntry b (optEntry "pp" (o.map encNullableRat) rest) =
    List.foldlM stepEntry { b with pp := oupd (o.map (fun x => x.getD 0)) b.pp } rest := by
  cases o with
  | none => rfl
  | some oo => cases oo <;> rfl

theorem fold_ranked_score (o : Option Nat) (h : o.getD 0 < 18446744073709551616) (b : StatsBuilder)
    (rest : List (String × Json)) :
    List.foldlM stepEntry b (optEntry "ranked_score" (o.map (fun n => Json.num n)) rest) =
    List.foldlM stepEntry { b with ranked_score := oupd o b.ranked_score } rest := by
  cases o with
  | none => rfl
  | some n =>
    have hn : n < 18446744073709551616 := by simpa using h
    simp [optEntry, List.foldlM_cons, stepEntry, decU64_natCast n hn]

theorem fold_replays_watched (o : Option Nat) (h : o.getD 0 < 4294967296) (b : StatsBuilder)
    (rest : List (String × Json)) :
    List.foldlM stepEntry b (optEntry "replays_watched_by_others" (o.map (fun n => Json.num n)) rest) =
    List.foldlM stepEntry { b with replays_watched := oupd o b.replays_watched } rest := by
  cases o with
  | none => rfl
  | some n =>
    have hn : n < 4294967296 := by simpa using h
    simp [optEntry, List.foldlM_cons, stepEntry, decU32_natCast n hn]

theorem fold_total_hits (o : Option Nat) (h : o.getD 0 < 18446744073709551616) (b : StatsBuilder)
    (rest : List (String × Json)) :
    List.foldlM stepEntry b (optEntry "total_hits" (o.map (fun n => Json.num n)) rest) =
    List.foldlM stepEntry { b with total_hits := oupd o b.total_hits } rest := by
  cases o with
  | none => rfl
  | some n =>
    have hn : n < 18446744073709551616 := by simpa using h
    simp [optEntry, List.foldlM_cons, stepEntry, decU64_natCast n hn]

theorem fold_total_score (o : Option Nat) (h : o.getD 0 < 18446744073709551616) (b : StatsBuilder)
    (rest : List (String × Json)) :
    List.foldlM stepEntry b (optEntry "total_score" (o.map (fun n => Json.num n)) rest) =
    List.foldlM stepEntry { b with total_score := oupd o b.total_score } rest := by
  cases o with
  | none => rfl
  | some n =>
    have hn : n < 18446744073709551616 := by simpa using h
    simp [optEntry, List.foldlM_cons, stepEntry, decU64_natCast n hn]

theorem fold_user (o : Option UserCompact) (h : o.all UserCompact.wfB = true) (b : StatsBuilder)
    (rest : List (String × Json)) :
    List.foldlM stepEntry b (optEntry "user" (o.map (fun u => Json.obj (renderRest u))) rest) =
    List.foldlM stepEntry { b with user := oupd (o.map (fun u => { u with statistics := none })) b.user } rest := by
  cases o with
  | none => rfl
  | some u =>
    have hu : u.wfB = true := by simpa using h
    simp [optEntry, List.foldlM_cons, stepEntry, decOptUser,
      decodeUserRest_renderRest u hu]

/-- Feeding the rendering of any representable flat envelope through
`UserStatsVisitor::visit_map` reaches the finalization checks with exactly
the builder state described by `builderOf`. -/
theorem visit_map_renderWire (w : WireStats) (hw : w.wfB = true) :
    UserStatsVisitor_visit_map (renderWire w) = finalizeStats (builderOf w) := by
  simp only [WireStats.wfB, Bool.and_eq_true, decide_eq_true_eq] at hw
  obtain ⟨⟨⟨⟨⟨⟨⟨⟨⟨hB_cr, hB_gr⟩, hB_mc⟩, hB_pc⟩, hB_pt⟩, hB_rs⟩, hB_rw⟩, hB_th⟩, hB_ts⟩, hB_us⟩ := hw
  simp only [UserStatsVisitor_visit_map, renderWire,
    fold_hit_accuracy, fold_country_rank _ hB_cr, fold_global_rank _ hB_gr,
    fold_grade_counts, fold_is_ranked, fold_level,
    fold_maximum_combo _ hB_mc, fold_play_count _ hB_pc,
    fold_play_time _ hB_pt, fold_pp, fold_ranked_score _ hB_rs,
    fold_replays_watched _ hB_rw, fold_total_hits _ hB_th,
    fold_total_score _ hB_ts, fold_user _ hB_us,
    List.foldlM_nil, exceptBind_ok, oupd_none_right, setIf_none_join,
    builderOf, pure_bind]

@[simp] theorem optEntry_some (n : String) (j : Json)
    (rest : List (String × Json)) :
    optEntry n (some j) rest = (n, j) :: rest := rfl

@[simp] theorem optEntry_none (n : String) (rest : List (String × Json)) :
    optEntry n none rest = rest := rfl

@[simp] theorem map_some_getD_none {α : Type} (o : Option α) :
    (o.map some).getD none = o := by
  cases o <;> rfl

@[simp] theorem join_map_some {α : Type} (o : Option α) :
    (o.map some).join = o := by
  cases o <;> rfl

/-- A flat envelope in which all 13 required keys are present (the optional
ranks may be absent, `null` or a value; `play_time`/`pp` are present but may
be `null`). -/
structure FullWire where
  hit_accuracy : Rat
  country_rank : Option (Option Nat)
  global_rank : Option (Option Nat)
  grade_counts : Json
  is_ranked : Bool
  level : Json
  maximum_combo : Nat
  play_count : Nat
  play_time : Option Nat
  pp : Option Rat
  ranked_score : Nat
  replays_watched_by_others : Nat
  total_hits : Nat
  total_score : Nat
  user : UserCompact

/-- View a fully-populated envelope as a `WireStats`. -/
def FullWire.toWire (f : FullWire) : WireStats where
  hit_accuracy := some f.hit_accuracy
  country_rank := f.country_rank
  global_rank := f.global_rank
  grade_counts := some f.grade_counts
  is_ranked := some f.is_ranked
  level := some f.level
  maximum_combo := some f.maximum_combo
  play_count := some f.play_count
  play_time := some f.play_time
  pp := some f.pp
  ranked_score := some f.ranked_score
  replays_watched_by_others := some f.replays_watched_by_others
  total_hits := some f.total_hits
  total_score := some f.total_score
  user := some f.user

/-- Representability of a fully-populated envelope. -/
def FullWire.wfB (f : FullWire) : Bool := f.toWire.wfB

/-- Remove the key `k` (one of the 13 required keys) from an envelope,
leaving everything else in place. -/
def knockout (w : WireStats) (k : String) : WireStats :=
  match k with
  | "hit_accuracy" => { w with hit_accuracy := none }
  | "grade_counts" => { w with grade_counts := none }
  | "is_ranked" => { w with is_ranked := none }
  | "level" => { w with level := none }
  | "maximum_combo" => { w with maximum_combo := none }
  | "play_count" => { w with play_count := none }
  | "play_time" => { w with play_time := none }
  | "pp" => { w with pp := none }
  | "ranked_score" => { w with ranked_score := none }
  | "replays_watched_by_others" => { w with replays_watched_by_others := none }
  | "total_hits" => { w with total_hits := none }
  | "total_score" => { w with total_score := none }
  | "user" => { w with user := none }
  | _ => w

/-- The 12 required statistics keys plus `user`, in the order the
finalization checks of `visit_map` test them (lines 201-214). -/
def requiredStatsKeys : List String :=
  ["hit_accuracy", "grade_counts", "is_ranked", "level", "maximum_combo",
   "play_count", "play_time", "pp", "ranked_score",
   "replays_watched_by_others", "total_hits", "total_score", "user"]

theorem knockout_wfB (w : WireStats) (k : String) (h : w.wfB = true) :
    (knockout w k).wfB = true := by
  unfold knockout
  split <;> simp_all [WireStats.wfB]

/-- The serializer's output is exactly the rendering of the fully-populated
envelope read off the entity's statistics. -/
def fullOfEntity (u : UserCompact) (s : UserStatistics) : FullWire where
  hit_accuracy := s.accuracy
  country_rank := s.country_rank.map some
  global_rank := s.global_rank.map some
  grade_counts := s.grade_counts
  is_ranked := s.is_ranked
  level := s.level
  maximum_combo := s.max_combo
  play_count := s.playcount
  play_time := some s.playtime
  pp := some s.pp
  ranked_score := s.ranked_score
  replays_watched_by_others := s.replays_watched
  total_hits := s.total_hits
  total_score := s.total_score
  user := u

theorem serialize_eq_render (u : UserCompact) (s : UserStatistics)
    (h : u.statistics = some s) :
    UserCompactBorrowed_serialize u =
      some (renderWire (fullOfEntity u s).toWire) := by
  rcases hcr : s.country_rank with _ | cr <;>
    rcases hgr : s.global_rank with _ | gr <;>
    simp [UserCompactBorrowed_serialize, h, renderWire, fullOfEntity,
      FullWire.toWire, encNullableNum, encNullableRat, hcr, hgr]

theorem fullOfEntity_wfB (u : UserCompact) (s : UserStatistics)
    (h : u.statistics = some s) (hw : u.wfB = true) :
    (fullOfEntity u s).toWire.wfB = true := by
  have hs : s.wfB = true := by
    simp only [UserCompact.wfB, Bool.and_eq_true, decide_eq_true_eq] at hw
    have := hw.2
    rw [h] at this
    simpa using this
  simp only [UserStatistics.wfB, Bool.and_eq_true, decide_eq_true_eq] at hs
  obtain ⟨⟨⟨⟨⟨⟨⟨⟨hs1, hs2⟩, hs3⟩, hs4⟩, hs5⟩, hs6⟩, hs7⟩, hs8⟩, hs9⟩ := hs
  simp [WireStats.wfB, FullWire.toWire, fullOfEntity, hw,
    hs1, hs2, hs3, hs4, hs5, hs6, hs7, hs8, hs9]

theorem set_statistics_eta (u : UserCompact) (s : UserStatistics)
    (h : u.statistics = some s) :
    ({ u with statistics := some s } : UserCompact) = u := by
  rw [← h]

/-- C1: for every entity with a populated statistics sub-record (any
combination of the optional `country_rank`/`global_rank` present or absent),
decoding the envelope produced by encoding the entity yields the identical
entity. -/
theorem C1_round_trip (u : UserCompact) (s : UserStatistics)
    (h : u.statistics = some s) (hw : u.wfB = true) :
    (UserCompactBorrowed_serialize u).map UserStatsVisitor_visit_map =
      some (.ok u) := by
  rw [serialize_eq_render u s h]
  simp only [Option.map_some']
  rw [visit_map_renderWire _ (fullOfEntity_wfB u s h hw)]
  simp only [finalizeStats, builderOf, FullWire.toWire, fullOfEntity,
    reqSlot, join_map_some, Option.map_some', Option.getD_some,
    exceptBind_ok]
  exact congrArg (fun x => some (Except.ok x)) (set_statistics_eta u s h)

/-- Sample statistics sub-record used by the concrete witnesses. -/
def sampleStats : UserStatistics where
  accuracy := (197 : Rat) / 2
  country_rank := some 12
  global_rank := none
  grade_counts := .obj [("ss", .num 1)]
  is_ranked := true
  level := .obj [("current", .num 100)]
  max_combo := 1000
  playcount := 5000
  playtime := 100000
  pp := 7000
  ranked_score := 123456
  replays_watched := 10
  total_hits := 99999
  total_score := 987654

/-- Sample entity used by the concrete witnesses. -/
def sampleUser : UserCompact where
  avatar_url := "https://a.ppy.sh/2"
  country_code := "US"
  default_group := "default"
  is_active := true
  is_bot := false
  is_deleted := false
  is_online := true
  is_supporter := false
  last_visit := some (.str "2024-01-01T00:00:00Z")
  pm_friends_only := false
  profile_color := none
  user_id := 2
  username := "x"
  account_history := none
  badges := some (.arr [])
  beatmap_playcounts_count := some 3
  country := some "United States"
  cover := none
  favourite_mapset_count := none
  follower_count := some 7
  graveyard_mapset_count := none
  groups := none
  is_admin := none
  is_bng := none
  is_full_bn := none
  is_gmt := none
  is_limited_bn := none
  is_moderator := none
  is_nat := none
  is_silenced := none
  loved_mapset_count := none
  medals := none
  monthly_playcounts := none
  page := none
  previous_usernames := none
  rank_history := some (.arr [.num 1, .num 2])
  ranked_mapset_count := none
  replays_watched_counts := none
  scores_best_count := some 4
  scores_first_count := none
  scores_recent_count := some 9
  statistics := some sampleStats
  support_level := some 2
  pending_mapset_count := none

theorem C1_round_trip_witness :
    sampleUser.statistics = some sampleStats ∧ sampleUser.wfB = true ∧
    (UserCompactBorrowed_serialize sampleUser).map UserStatsVisitor_visit_map =
      some (.ok sampleUser) :=
  ⟨rfl, by decide, C1_round_trip sampleUser sampleStats rfl (by decide)⟩

/-- C2: with all other required keys present and well-typed, an envelope
from which one of the 12 required statistics keys or `user` is entirely
absent fails with a missing-field error naming exactly that key; and an
envelope in which `play_time` and `pp` are present as JSON `null` decodes
successfully with those two statistics equal to zero. -/
theorem C2_missing_field_and_null_leniency :
    (∀ (f : FullWire) (k : String), k ∈ requiredStatsKeys → f.wfB = true →
      UserStatsVisitor_visit_map (renderWire (knockout f.toWire k)) =
        .error (.missingField k)) ∧
    (∀ f : FullWire, f.wfB = true → f.play_time = none → f.pp = none →
      ∃ u s, UserStatsVisitor_visit_map (renderWire f.toWire) = .ok u ∧
        u.statistics = some s ∧ s.playtime = 0 ∧ s.pp = 0) := by
  constructor
  · intro f k hk hw
    rw [visit_map_renderWire _ (knockout_wfB _ _ hw)]
    simp only [requiredStatsKeys, List.mem_cons, List.not_mem_nil,
      or_false] at hk
    rcases hk with rfl | rfl | rfl | rfl | rfl | rfl | rfl | rfl | rfl |
      rfl | rfl | rfl | rfl <;>
      simp [knockout, builderOf, FullWire.toWire, finalizeStats, reqSlot]
  · intro f hw hpt hpp
    rw [visit_map_renderWire _ hw]
    simp only [builderOf, FullWire.toWire, finalizeStats, reqSlot, hpt, hpp,
      Option.map_some', Option.getD_none, exceptBind_ok]
    exact ⟨_, _, rfl, rfl, rfl, rfl⟩

/-- Sample fully-populated envelope (with `play_time` and `pp` present as
`null`) used by the concrete witnesses. -/
def sampleFull : FullWire where
  hit_accuracy := (197 : Rat) / 2
  country_rank := some (some 12)
  global_rank := none
  grade_counts := .obj [("ss", .num 1)]
  is_ranked := true
  level := .obj [("current", .num 100)]
  maximum_combo := 1000
  play_count := 5000
  play_time := none
  pp := none
  ranked_score := 123456
  replays_watched_by_others := 10
  total_hits := 99999
  total_score := 987654
  user := sampleUser

theorem C2_missing_field_and_null_leniency_witness :
    ("pp" ∈ requiredStatsKeys ∧ sampleFull.wfB = true ∧
      UserStatsVisitor_visit_map (renderWire (knockout sampleFull.toWire "pp")) =
        .error (.missingField "pp")) ∧
    (sampleFull.play_time = none ∧ sampleFull.pp = none ∧
      ∃ u s, UserStatsVisitor_visit_map (renderWire sampleFull.toWire) = .ok u ∧
        u.statistics = some s ∧ s.playtime = 0 ∧ s.pp = 0) :=
  ⟨⟨by decide, by decide,
    C2_missing_field_and_null_leniency.1 sampleFull "pp" (by decide) (by decide)⟩,
   rfl, rfl,
   C2_missing_field_and_null_leniency.2 sampleFull (by decide) rfl rfl⟩

/-- C7: encoding an entity with populated statistics emits one object whose
keys are, in order, `hit_accuracy`, then `country_rank` only if present,
then `global_rank` only if present, then the ten remaining required
statistics fields in canonical order, with a final `user` entry holding the
serialized non-statistics fields. -/
theorem C7_field_order (u : UserCompact) (s : UserStatistics)
    (h : u.statistics = some s) :
    (UserCompactBorrowed_serialize u).isSome = true ∧
    ((UserCompactBorrowed_serialize u).getD []).map Prod.fst =
      "hit_accuracy" ::
        ((if s.country_rank.isSome then ["country_rank"] else []) ++
         (if s.global_rank.isSome then ["global_rank"] else []) ++
         ["grade_counts", "is_ranked", "level", "maximum_combo", "play_count",
          "play_time", "pp", "ranked_score", "replays_watched_by_others",
          "total_hits", "total_score", "user"]) ∧
    ((UserCompactBorrowed_serialize u).getD []).getLast? =
      some ("user", .obj (renderRest u)) := by
  rcases hcr : s.country_rank with _ | cr <;>
    rcases hgr : s.global_rank with _ | gr <;>
    refine ⟨?_, ?_, ?_⟩ <;>
    simp [UserCompactBorrowed_serialize, h, hcr, hgr, List.getLast?]

theorem C7_field_order_witness :
    sampleUser.statistics = some sampleStats ∧
    (UserCompactBorrowed_serialize sampleUser).isSome = true ∧
    ((UserCompactBorrowed_serialize sampleUser).getD []).map Prod.fst =
      "hit_accuracy" ::
        ((if sampleStats.country_rank.isSome then ["country_rank"] else []) ++
         (if sampleStats.global_rank.isSome then ["global_rank"] else []) ++
         ["grade_counts", "is_ranked", "level", "maximum_combo", "play_count",
          "play_time", "pp", "ranked_score", "replays_watched_by_others",
          "total_hits", "total_score", "user"]) ∧
    ((UserCompactBorrowed_serialize sampleUser).getD []).getLast? =
      some ("user", .obj (renderRest sampleUser)) :=
  ⟨rfl, C7_field_order sampleUser sampleStats rfl⟩

/-- C8: an entity whose statistics sub-record is absent makes the encode
path panic (`stats.unwrap()`), embedded as the `none` result; no default
statistics value is substituted. -/
theorem C8_encode_panics_without_stats (u : UserCompact)
    (h : u.statistics = none) :
    UserCompactBorrowed_serialize u = none := by
  simp [UserCompactBorrowed_serialize, h]

theorem C8_encode_panics_without_stats_witness :
    ({ sampleUser with statistics := none } : UserCompact).statistics = none ∧
    UserCompactBorrowed_serialize { sampleUser with statistics := none } = none :=
  ⟨rfl, C8_encode_panics_without_stats _ rfl⟩

theorem cursorStep_skip (acc : Option Nat) (k : String) (v : Json)
    (h : k ≠ "page") : cursorStep acc (k, v) = .ok acc := by
  unfold cursorStep
  split
  · rename_i heq
    cases heq
    exact absurd rfl h
  · rfl

theorem foldlM_cursorStep_no_page (l : List (String × Json))
    (h : ∀ kv ∈ l, kv.1 ≠ "page") (acc : Option Nat) :
    List.foldlM cursorStep acc l = .ok acc := by
  induction l with
  | nil => rfl
  | cons kv rest ih =>
    obtain ⟨k, v⟩ := kv
    rw [List.foldlM_cons, cursorStep_skip acc k v (h (k, v) (by simp)),
      exceptBind_ok]
    exact ih fun kv hm => h kv (List.mem_cons_of_mem _ hm)

/-- C3 (amended): the cursor decode table, with page numbers restricted to
the `u32` range — `null` decodes to no-cursor; a bare integer `n < 2^32`
decodes to page `n`; an object with a `page: n` key decodes to page `n`
with every other key ignored; an object lacking `page` fails with the named
missing-field error; and a `Rankings` envelope with the `cursor` key
entirely absent decodes with no cursor. -/
theorem C3_cursor_decode_table :
    (deserialize_rankings_cursor .null = .ok none) ∧
    (∀ n : Nat, n < 4294967296 →
      deserialize_rankings_cursor (.num n) = .ok (some n)) ∧
    (∀ (l1 l2 : List (String × Json)) (n : Nat), n < 4294967296 →
      (∀ kv ∈ l1, kv.1 ≠ "page") → (∀ kv ∈ l2, kv.1 ≠ "page") →
      deserialize_rankings_cursor (.obj (l1 ++ ("page", .num n) :: l2)) =
        .ok (some n)) ∧
    (∀ fs : List (String × Json), (∀ kv ∈ fs, kv.1 ≠ "page") →
      deserialize_rankings_cursor (.obj fs) = .error (.missingField "page")) ∧
    (∀ (fields : List (String × Json)) (r : Rankings),
      findVal "cursor" fields = none → Rankings.deserialize fields = .ok r →
      r.next_page = none) := by
  refine ⟨rfl, ?_, ?_, ?_, ?_⟩
  · intro n hn
    have : (0 : Int) ≤ n ∧ (n : Int) < 18446744073709551616 := by omega
    simp [deserialize_rankings_cursor, this.1, this.2, Nat.mod_eq_of_lt hn]
  · intro l1 l2 n hn h1 h2
    have hstep : cursorStep none ("page", Json.num (n : Rat)) = .ok (some n) := by
      simp [cursorStep, decU32_natCast n hn]
    show rankingsCursorVisitMap (l1 ++ ("page", .num n) :: l2) = .ok (some n)
    unfold rankingsCursorVisitMap
    rw [List.foldlM_append, foldlM_cursorStep_no_page l1 h1, exceptBind_ok,
      List.foldlM_cons, hstep, exceptBind_ok,
      foldlM_cursorStep_no_page l2 h2, exceptBind_ok]
  · intro fs h
    simp [deserialize_rankings_cursor, rankingsCursorVisitMap,
      foldlM_cursorStep_no_page fs h]
  · intro fields r hc hr
    simp only [Rankings.deserialize, hc] at hr
    rcases h1 : optField decGameMode "mode" fields with e | mo <;>
      rw [h1] at hr <;> simp at hr
    rcases h2 : reqField deserialize_user_stats_vec "ranking" fields with
      e | rk <;> rw [h2] at hr <;> simp at hr
    rcases h3 : optField decRankingType "ranking_type" fields with e | rt <;>
      rw [h3] at hr <;> simp at hr
    rcases h4 : reqField decU32 "total" fields with e | t <;>
      rw [h4] at hr <;> simp at hr
    rw [← hr]

theorem C3_cursor_decode_table_witness :
    deserialize_rankings_cursor .null = .ok none ∧
    ((7 : Nat) < 4294967296 ∧
      deserialize_rankings_cursor (.num ((7 : Nat) : Rat)) = .ok (some 7)) ∧
    deserialize_rankings_cursor
      (.obj [("page", .num ((3 : Nat) : Rat)), ("extra", .str "x")]) =
      .ok (some 3) ∧
    deserialize_rankings_cursor (.obj [("extra", .num 1)]) =
      .error (.missingField "page") ∧
    (Rankings.deserialize [("ranking", .arr []), ("total", .num 0)] =
      .ok { mode := none, next_page := none, ranking := [],
            ranking_type := none, total := 0 } ∧
     ({ mode := none, next_page := none, ranking := [], ranking_type := none,
        total := 0 } : Rankings).next_page = none) :=
  ⟨C3_cursor_decode_table.1,
   ⟨by decide, C3_cursor_decode_table.2.1 7 (by decide)⟩,
   C3_cursor_decode_table.2.2.1 [] [("extra", .str "x")] 3 (by decide)
     (by simp) (by simp),
   C3_cursor_decode_table.2.2.2.1 [("extra", .num 1)] (by simp),
   ⟨rfl,
    C3_cursor_decode_table.2.2.2.2 [("ranking", .arr []), ("total", .num 0)]
      _ rfl rfl⟩⟩

/-- C3 as stated fails: the wire integer `2^32` decodes to page `0`, not to
page `2^32` — the `v as u32` cast truncates. -/
theorem C3_cursor_decode_table_counterexample :
    deserialize_rankings_cursor (.num ((4294967296 : Nat) : Rat)) =
      .ok (some 0) ∧ (0 : Nat) ≠ 4294967296 := by
  constructor
  · rfl
  · decide

/-- C9: a bare wire integer that fits the `u64` visitor argument but not 32
bits does not fail: the `v as u32` cast silently truncates it modulo
`2^32`, so the decoded page differs from the wire value. -/
theorem C9_truncating_cast (n : Nat) (h1 : 4294967296 ≤ n)
    (h2 : n < 18446744073709551616) :
    deserialize_rankings_cursor (.num n) = .ok (some (n % 4294967296)) ∧
    n % 4294967296 ≠ n := by
  constructor
  · have : (0 : Int) ≤ n ∧ (n : Int) < 18446744073709551616 := by omega
    simp [deserialize_rankings_cursor, this.1, this.2]
  · have : n % 4294967296 < 4294967296 := Nat.mod_lt n (by decide)
    omega

theorem C9_truncating_cast_witness :
    ((4294967296 : Nat) ≤ 4294967297 ∧
      (4294967297 : Nat) < 18446744073709551616) ∧
    deserialize_rankings_cursor (.num ((4294967297 : Nat) : Rat)) =
      .ok (some (4294967297 % 4294967296)) ∧
    (4294967297 : Nat) % 4294967296 ≠ 4294967297 :=
  ⟨⟨by decide, by decide⟩, C9_truncating_cast 4294967297 (by decide) (by decide)⟩

/-- Wire name of each ranking subkind (`impl fmt::Display for RankingType`,
lines 496-507; identical to the `rename_all = "lowercase"` wire form). -/
def RankingType.display : RankingType → String
  | .Charts => "charts"
  | .Country => "country"
  | .Performance => "performance"
  | .Score => "score"

/-- The concrete wire envelope refuting C4. -/
def c4input : List (String × Json) :=
  [("cursor", .num 3), ("ranking", .arr []),
   ("ranking_type", .str "charts"), ("total", .num 0)]

/-- C4 as stated fails: the public decode path yields a `Rankings` whose
context carries subkind `Charts` together with a dispatchable cursor. -/
theorem C4_unreachable_guard_counterexample :
    Rankings.deserialize c4input =
      .ok { mode := none, next_page := some 3, ranking := [],
            ranking_type := some RankingType.Charts, total := 0 } := by
  rfl

/-- C4 (amended): field privacy prevents direct construction of a
`Rankings` outside the crate, but the public decode path is not so
restricted — for every page number and every ranking subkind, including
`Charts` and `Country`, some wire envelope decodes to a `Rankings` carrying
that subkind together with a dispatchable cursor. -/
theorem C4_amended_decode_reaches_any_subkind (p : Nat)
    (hp : p < 4294967296) (kind : RankingType) :
    ∃ r, Rankings.deserialize
      [("cursor", .num p), ("ranking", .arr []),
       ("ranking_type", .str kind.display), ("total", .num 0)] = .ok r ∧
      r.ranking_type = some kind ∧ r.next_page = some p := by
  refine ⟨{ mode := none, next_page := some p, ranking := [],
            ranking_type := some kind, total := 0 }, ?_, rfl, rfl⟩
  have h0 : (0 : Int) ≤ p ∧ (p : Int) < 18446744073709551616 := by omega
  have hdisp : decRankingType (.str kind.display) = .ok kind := by
    cases kind <;> rfl
  simp [Rankings.deserialize, optField, reqField, findVal,
    deserialize_rankings_cursor, deserialize_user_stats_vec, hdisp,
    decU32, h0.1, h0.2, Nat.mod_eq_of_lt hp]
  rfl

theorem C4_amended_decode_reaches_any_subkind_witness :
    (3 : Nat) < 4294967296 ∧
    ∃ r, Rankings.deserialize
      [("cursor", .num (3 : Nat)), ("ranking", .arr []),
       ("ranking_type", .str RankingType.Charts.display), ("total", .num 0)] =
        .ok r ∧
      r.ranking_type = some RankingType.Charts ∧ r.next_page = some 3 :=
  ⟨by decide, C4_amended_decode_reaches_any_subkind 3 (by decide) .Charts⟩

/-- C5: on a page with stored page number, mode and subkind, `get_next`
issues exactly the one performance-ranking request for the stored context
when the subkind is `Performance`, exactly the one score-ranking request
when it is `Score`, and aborts through the `unreachable!` assertion for
`Charts` and `Country`. -/
theorem C5_dispatch (r : Rankings) (page : Nat) (mode : GameMode)
    (kind : RankingType) (hp : r.next_page = some page)
    (hm : r.mode = some mode) (hk : r.ranking_type = some kind) :
    (kind = .Performance →
      r.get_next = .request (.performanceRankings mode page)) ∧
    (kind = .Score → r.get_next = .request (.scoreRankings mode page)) ∧
    (kind = .Charts ∨ kind = .Country → r.get_next = .panic) := by
  cases kind <;> simp [Rankings.get_next, hp, hm, hk]

/-- Concrete dispatchable page matching the spec's end-to-end scenario. -/
def sampleRankings : Rankings where
  mode := some .osu
  next_page := some 3
  ranking := []
  ranking_type := some .Performance
  total := 50

theorem C5_dispatch_witness :
    sampleRankings.next_page = some 3 ∧ sampleRankings.mode = some .osu ∧
    sampleRankings.ranking_type = some .Performance ∧
    sampleRankings.get_next = .request (.performanceRankings .osu 3) :=
  ⟨rfl, rfl, rfl,
    (C5_dispatch sampleRankings 3 .osu .Performance rfl rfl rfl).1 rfl⟩

/-- C6: a page whose cursor decoded to the empty case answers `get_next`
with the "no more data" sentinel and issues no request, for all three page
types. -/
theorem C6_exhausted_pages :
    (∀ r : Rankings, r.next_page = none → r.get_next = .noMore) ∧
    (∀ (c : CountryRankings) (m : GameMode), c.next_page = none →
      c.get_next m = .noMore) ∧
    (∀ n : News, n.cursor = none → n.get_next = .noMore) := by
  refine ⟨fun r h => ?_, fun c m h => ?_, fun n h => ?_⟩ <;>
    simp [Rankings.get_next, CountryRankings.get_next, News.get_next, h]

/-- Concrete exhausted pages for the witness. -/
def exhaustedRankings : Rankings where
  mode := some .osu
  next_page := none
  ranking := []
  ranking_type := some .Performance
  total := 0

def exhaustedCountry : CountryRankings where
  next_page := none
  ranking := []
  total := 0

def exhaustedNews : News where
  cursor := none
  posts := []
  search := { cursor := none, limit := 21 }
  sidebar := { current_year := 2024, posts := [], years := [] }

theorem C6_exhausted_pages_witness :
    (exhaustedRankings.next_page = none ∧
      exhaustedRankings.get_next = .noMore) ∧
    (exhaustedCountry.next_page = none ∧
      exhaustedCountry.get_next .osu = .noMore) ∧
    (exhaustedNews.cursor = none ∧ exhaustedNews.get_next = .noMore) :=
  ⟨⟨rfl, C6_exhausted_pages.1 _ rfl⟩,
   ⟨rfl, C6_exhausted_pages.2.1 _ .osu rfl⟩,
   ⟨rfl, C6_exhausted_pages.2.2 _ rfl⟩⟩

/-- C10: a page with a stored next page but missing mode or subkind answers
`get_next` with the same "no more data" sentinel as an exhausted page; no
request is issued and nothing distinguishes the two cases at the public
interface. -/
theorem C10_missing_context (r : Rankings) (p : Nat)
    (hp : r.next_page = some p) (h : r.mode = none ∨ r.ranking_type = none) :
    r.get_next = .noMore := by
  rcases h with h | h
  · simp [Rankings.get_next, hp, h]
  · rcases hm : r.mode with _ | m <;> simp [Rankings.get_next, hp, hm, h]

/-- A page with a cursor but no stored mode. -/
def contextlessRankings : Rankings where
  mode := none
  next_page := some 4
  ranking := []
  ranking_type := some .Performance
  total := 1

theorem C10_missing_context_witness :
    contextlessRankings.next_page = some 4 ∧ contextlessRankings.mode = none ∧
    contextlessRankings.get_next = .noMore :=
  ⟨rfl, rfl, C10_missing_context _ 4 rfl (Or.inl rfl)⟩

end RosuV2
